import Mathlib

/-!
Shallow embedding of the GPU-cluster monitoring and fault-suppression engine:
the suppression store of `lib/exclusion_manager.py`, the active
`handle_gpu_error` escalation policy and the `monitor_single_node` /
`monitor_all_nodes` orchestration of `dcgm-monitor-and-auto-recover.py`, and
the severity-class taxonomy fixed by the classifier contract in
`lib/metrics_processor_llm.py`.

Timestamps and durations are integers (epoch seconds); the persisted JSON
object is modelled as an association list keyed by instance id; success or
failure of a persistence write is an explicit boolean parameter `saveOk`;
fire-and-forget external calls (metric emission, reboot / replace dispatch)
are recorded as an ordered trace of `Action` values.
-/

namespace GpuMonitor

/-- One entry of `gpu_monitor_exclusions.json`, as written by
`ExclusionManager.add_exclusion` (lines 107-114).  The `readable_time` /
`expires_at` display strings stored alongside are pure functions of
`start_time` and `timeout`, abstracted below by `readableTime`. -/
structure ExclusionRecord where
  node_name : String
  error_type : String
  start_time : Int
  timeout : Int
deriving Repr, DecidableEq

/-- The persisted exclusion map (a JSON object: keys in insertion order). -/
abbrev Store := List (String × ExclusionRecord)

/-- Keys of the persisted map are pairwise distinct, as they are for a JSON
object / Python dict. -/
def StoreWF (st : Store) : Prop := (st.map Prod.fst).Nodup

/-- Dictionary lookup: `exclusions.get(instance_id)`; membership
`instance_id in exclusions` is `(lookupEx st iid).isSome`. -/
def lookupEx : Store → String → Option ExclusionRecord
  | [], _ => none
  | (k, v) :: rest, iid => if k = iid then some v else lookupEx rest iid

/-- The `ExclusionManager.__init__` default `default_timeout = 1800`
(30 minutes); the monitor constructs `ExclusionManager()` with this default. -/
def defaultTimeout : Int := 1800

/-- Abstraction of the `datetime.fromtimestamp(...).strftime(...)` display
string stored as `readable_time`: a pure function of the epoch timestamp.
The exact formatting is irrelevant to every property below. -/
def readableTime (t : Int) : String := toString t

/-- Outcome of opening and parsing the exclusion file in
`ExclusionManager._load_exclusions`. -/
inductive LoadResult where
  | ok (m : Store)
  | missing
  | ioError
  | malformed
deriving Repr, DecidableEq

/-- `ExclusionManager._load_exclusions` (lines 39-69): a missing file yields
`{}`; `json.JSONDecodeError` and `IOError` are caught, logged, and yield
`{}`. -/
def loadExclusions : LoadResult → Store
  | .ok m => m
  | .missing => []
  | .ioError => []
  | .malformed => []

/-- Python `timeout = timeout or self.default_timeout` in `add_exclusion`
(line 105): both `None` and `0` are falsy and fall back to the default. -/
def effectiveTimeout : Option Int → Int
  | none => defaultTimeout
  | some v => if v = 0 then defaultTimeout else v

/-- `ExclusionManager.add_exclusion` (lines 84-119).  `saveOk` is the outcome
of the `_save_exclusions` write; on a failed write the file is unchanged and
the method returns `False`. -/
def addExclusion (st : Store) (now : Int) (saveOk : Bool)
    (iid node etype : String) (t : Option Int) : Bool × Store :=
  if (lookupEx st iid).isSome then (false, st)
  else
    let st' := st ++ [(iid, ⟨node, etype, now, effectiveTimeout t⟩)]
    if saveOk then (true, st') else (false, st)

/-- `ExclusionManager.remove_exclusion` (lines 121-142). -/
def removeExclusion (st : Store) (saveOk : Bool) (iid : String) : Bool × Store :=
  if (lookupEx st iid).isSome then
    let st' := st.filter (fun p => p.1 != iid)
    if saveOk then (true, st') else (false, st)
  else (false, st)

/-- `ExclusionManager.is_excluded`. -/
def isExcluded (st : Store) (iid : String) : Bool := (lookupEx st iid).isSome

/-- The expiry test of `cleanup_expired` (line 185):
`current_time - start_time > timeout`, a strict comparison. -/
def isExpiredAt (now : Int) (r : ExclusionRecord) : Bool :=
  decide (now - r.start_time > r.timeout)

/-- `ExclusionManager.cleanup_expired` (lines 170-199): collects every expired
record, deletes them, persists once if any were deleted, and returns how many
were deleted.  On a failed persist the file keeps its old contents (the
deletions were in-memory only), but the count is still returned. -/
def cleanupExpired (st : Store) (now : Int) (saveOk : Bool) : Nat × Store :=
  let expired := st.filter (fun p => isExpiredAt now p.2)
  if expired.isEmpty then (0, st)
  else (expired.length,
        if saveOk then st.filter (fun p => !isExpiredAt now p.2) else st)

/-- The skip reason built by `should_monitor` (line 220) from the record's
`error_type` and `readable_time` fields. -/
def reasonString (r : ExclusionRecord) : String :=
  "Reason: " ++ r.error_type ++ " Handling in Progress (Exclusion Time: "
    ++ readableTime r.start_time ++ ")"

/-- `ExclusionManager.should_monitor` (lines 201-225): sweeps expired records
first, then reports the record-derived reason if the instance is still
excluded in the post-sweep state. -/
def shouldMonitor (st : Store) (now : Int) (saveOk : Bool) (iid : String) :
    (Bool × Option String) × Store :=
  let st1 := (cleanupExpired st now saveOk).2
  if isExcluded st1 iid then
    match lookupEx st1 iid with
    | some info => ((false, some (reasonString info)), st1)
    | none => ((true, none), st1)
  else ((true, none), st1)

/-- `ExclusionManager.pause_instance` (lines 278-295): a manual
`add_exclusion`. -/
def pauseInstance (st : Store) (now : Int) (saveOk : Bool)
    (iid node reason : String) (t : Option Int) : Bool × Store :=
  addExclusion st now saveOk iid node reason t

/-- `ExclusionManager.resume_instance`: a manual `remove_exclusion`. -/
def resumeInstance (st : Store) (saveOk : Bool) (iid : String) : Bool × Store :=
  removeExclusion st saveOk iid

/-- `pat` is an initial segment of the second character list. -/
def charsStart : List Char → List Char → Bool
  | [], _ => true
  | _ :: _, [] => false
  | p :: ps, c :: cs => p == c && charsStart ps cs

/-- `pat` occurs as a contiguous substring of the character list. -/
def charsContain (pat : List Char) : List Char → Bool
  | [] => pat.isEmpty
  | c :: cs => charsStart pat (c :: cs) || charsContain pat cs

/-- Python substring membership `pat in s` on strings. -/
def strContains (s pat : String) : Bool := charsContain pat.data s.data

/-- Fire-and-forget external effects issued by the escalation path, in call
order: `ErrorHandlerDispatch.send_cloudwatch_metrics`, the `add_exclusion`
attempt, and `call_replace_script` / `call_reboot_script`. -/
inductive Action where
  | emitMetric (error_class : String) (count : Int) (node iid : String)
  | addExcl (iid node error_type : String) (t : Int)
  | replaceRequest (node iid : String) (wait_time : Int)
  | rebootRequest (node iid : String) (wait_time : Int) (async_mode : Bool)
deriving Repr, DecidableEq

/-- Whether an action is a CloudWatch metric emission. -/
def Action.isMetric : Action → Bool
  | .emitMetric _ _ _ _ => true
  | _ => false

/-- Number of metric data points in a trace. -/
def metricCount (tr : List Action) : Nat := (tr.filter Action.isMetric).length

/-- The classifier output dict `{'error_class': ..., 'error_count': ...}`
returned by `process_metrics_llm` (the `error_gpu_id` field is never read by
the escalation path). -/
structure ParsedError where
  error_class : String
  error_count : Int
deriving Repr, DecidableEq

/-- The second (active) `DCGMMonitor.handle_gpu_error` (lines 289-320): every
non-`HEALTHY` class emits one CloudWatch metric; a class containing `"XID"`
with count > 5 takes the heavy path (900 s suppression + replace request); a
class containing `"XID"` with count ≤ 5 takes the light path (200 s
suppression + async reboot request with a 30 s wait hint); any other class
only logs and returns. -/
def handleGpuError (st : Store) (now : Int) (saveOk : Bool)
    (pe : ParsedError) (node iid : String) : Store × List Action :=
  let metricTrace : List Action :=
    if pe.error_class ≠ "HEALTHY" then
      [.emitMetric pe.error_class pe.error_count node iid]
    else []
  if strContains pe.error_class "XID" ∧ pe.error_count > 5 then
    ((addExclusion st now saveOk iid node pe.error_class (some 900)).2,
     metricTrace ++ [.addExcl iid node pe.error_class 900,
                     .replaceRequest node iid 900])
  else if strContains pe.error_class "XID" ∧ pe.error_count ≤ 5 then
    ((addExclusion st now saveOk iid node pe.error_class (some 200)).2,
     metricTrace ++ [.addExcl iid node pe.error_class 200,
                     .rebootRequest node iid 30 true])
  else (st, metricTrace)

/-- The closed severity-class taxonomy dictated to the classifier in
`lib/metrics_processor_llm.py` (lines 20-30). -/
inductive SeverityClass where
  | xidCritical999 | xidCritical79 | xidCritical74
  | xidWarning43 | xidWarning62 | xidWarning31
  | xidError | eccError
  | gpuHealthWarning | gpuHealthError
  | healthy
deriving Repr, DecidableEq

/-- The class tag string of each severity class, exactly as listed in the
classifier prompt. -/
def className : SeverityClass → String
  | .xidCritical999 => "XID_CRITICAL_999"
  | .xidCritical79 => "XID_CRITICAL_79"
  | .xidCritical74 => "XID_CRITICAL_74"
  | .xidWarning43 => "XID_WARNING_43"
  | .xidWarning62 => "XID_WARNING_62"
  | .xidWarning31 => "XID_WARNING_31"
  | .xidError => "XID_ERROR"
  | .eccError => "ECC_ERROR"
  | .gpuHealthWarning => "GPU_HEALTH_WARNING"
  | .gpuHealthError => "GPU_HEALTH_ERROR"
  | .healthy => "HEALTHY"

/-- WARNING-tier classes: those whose tag carries the `WARNING` marker
(the spec's tier naming; e.g. `XID_WARNING_43`, `GPU_HEALTH_WARNING`). -/
def isWarningTier (c : SeverityClass) : Bool :=
  strContains (className c) "WARNING"

/-- CRITICAL-tier classes: those whose tag carries the `CRITICAL` marker
(`XID_CRITICAL_999`, `XID_CRITICAL_79`, `XID_CRITICAL_74`). -/
def isCriticalTier (c : SeverityClass) : Bool :=
  strContains (className c) "CRITICAL"

/-- Per-resource view of one polling cycle: the node discovered by
`get_dcgm_pods_with_nodes`, its resolved instance id, the outcome of
`query_dcgm_metrics` (`none` for a failed or empty query), and the outcome of
`process_metrics_llm` on the fetched report (`Except.error` when the
classifier call or its output parsing raises). -/
structure ResourceEnv where
  node_name : String
  instance_id : String
  fetched : Option String
  classified : Except String ParsedError

/-- `DCGMMonitor.monitor_single_node` (lines 324-362).  The returned `Store`
is the persisted state after whatever mutations happened before a potential
raise (the `should_monitor` sweep always runs first); `Except.error` models an
exception escaping to the caller. -/
def monitorSingleNode (env : ResourceEnv) (st : Store) (now : Int)
    (saveOk : Bool) : Store × Except String (Bool × List Action) :=
  let st1 := (shouldMonitor st now saveOk env.instance_id).2
  if ((shouldMonitor st now saveOk env.instance_id).1).1 = false then
    (st1, .ok (true, []))
  else
    match env.fetched with
    | none => (st1, .ok (false, []))
    | some _ =>
      match env.classified with
      | .error e => (st1, .error e)
      | .ok pe =>
        if pe.error_class ≠ "HEALTHY" then
          let r := handleGpuError st1 now saveOk pe env.node_name env.instance_id
          (r.1, .ok (true, r.2))
        else (st1, .ok (true, []))

/-- What the `monitor_all_nodes` loop records for one resource: a completed
evaluation (with `monitor_single_node`'s boolean result) or a caught and
logged exception. -/
inductive NodeOutcome where
  | completed (success : Bool)
  | exceptionLogged (msg : String)
deriving Repr, DecidableEq

/-- `DCGMMonitor.monitor_all_nodes` (lines 364-381): iterates over the
discovered resources; each `monitor_single_node` call is wrapped in
`try/except`, so a raise is logged and the loop continues with the next
resource.  Returns the final persisted store and one outcome per resource. -/
def monitorAllNodes (envs : List ResourceEnv) (st : Store) (now : Int)
    (saveOk : Bool) : Store × List NodeOutcome :=
  match envs with
  | [] => (st, [])
  | env :: rest =>
    let r := monitorSingleNode env st now saveOk
    let rec' := monitorAllNodes rest r.1 now saveOk
    match r.2 with
    | .ok br => (rec'.1, .completed br.1 :: rec'.2)
    | .error e => (rec'.1, .exceptionLogged e :: rec'.2)

/-- Spec-side notion used by the `add` contract (§4.1): the resource currently
has a non-expired record.  (`add_exclusion` itself tests bare membership, not
this.) -/
def hasActiveRecord (st : Store) (now : Int) (iid : String) : Bool :=
  match lookupEx st iid with
  | none => false
  | some r => !isExpiredAt now r

/-! ### Supporting lemmas about the store -/

lemma lookupEx_eq_some_mem {st : Store} {iid : String} {r : ExclusionRecord}
    (h : lookupEx st iid = some r) : (iid, r) ∈ st := by
  induction st with
  | nil => simp [lookupEx] at h
  | cons p rest ih =>
    obtain ⟨k, v⟩ := p
    by_cases hk : k = iid
    · subst hk
      have hv : v = r := by simpa [lookupEx] using h
      subst hv
      exact List.mem_cons_self _ _
    · simp only [lookupEx, if_neg hk] at h
      exact List.mem_cons_of_mem _ (ih h)

lemma mem_unique_of_wf {st : Store} {iid : String} {r r' : ExclusionRecord}
    (hwf : StoreWF st) (h : (iid, r) ∈ st) (h' : (iid, r') ∈ st) : r = r' := by
  induction st with
  | nil => simp at h
  | cons p rest ih =>
    obtain ⟨k, v⟩ := p
    have hk : k ∉ rest.map Prod.fst := (List.nodup_cons.mp hwf).1
    have hnd : StoreWF rest := (List.nodup_cons.mp hwf).2
    rcases List.mem_cons.mp h with h0 | h0 <;>
      rcases List.mem_cons.mp h' with h1 | h1
    · obtain ⟨_, hrv⟩ := Prod.ext_iff.mp h0
      obtain ⟨_, hrv'⟩ := Prod.ext_iff.mp h1
      exact hrv.trans hrv'.symm
    · obtain ⟨hik, _⟩ := Prod.ext_iff.mp h0
      have hik' : iid = k := hik
      have hmem : iid ∈ rest.map Prod.fst := by
        simpa using List.mem_map_of_mem Prod.fst h1
      exact absurd (hik' ▸ hmem) hk
    · obtain ⟨hik, _⟩ := Prod.ext_iff.mp h1
      have hik' : iid = k := hik
      have hmem : iid ∈ rest.map Prod.fst := by
        simpa using List.mem_map_of_mem Prod.fst h0
      exact absurd (hik' ▸ hmem) hk
    · exact ih hnd h0 h1

lemma lookupEx_filter_none {st : Store} {iid : String}
    {q : String × ExclusionRecord → Bool}
    (h : ∀ r, (iid, r) ∈ st → q (iid, r) = false) :
    lookupEx (st.filter q) iid = none := by
  induction st with
  | nil => rfl
  | cons p rest ih =>
    obtain ⟨k, v⟩ := p
    have ihr := ih (fun r hr => h r (List.mem_cons_of_mem _ hr))
    by_cases hk : k = iid
    · subst hk
      rw [List.filter_cons, h v (List.mem_cons_self _ _)]
      exact ihr
    · rw [List.filter_cons]
      cases hq : q (k, v) with
      | false => exact ihr
      | true => simpa [lookupEx, hk] using ihr

lemma lookupEx_append_self {st : Store} {iid : String} (r : ExclusionRecord)
    (h : lookupEx st iid = none) :
    lookupEx (st ++ [(iid, r)]) iid = some r := by
  induction st with
  | nil => simp [lookupEx]
  | cons p rest ih =>
    obtain ⟨k, v⟩ := p
    by_cases hk : k = iid
    · simp [lookupEx, hk] at h
    · simp only [lookupEx, if_neg hk] at h ⊢
      exact ih h

/-- With a successful persist, `cleanup_expired` leaves exactly the
non-expired records. -/
lemma cleanupExpired_snd (st : Store) (now : Int) :
    (cleanupExpired st now true).2 = st.filter (fun p => !isExpiredAt now p.2) := by
  simp only [cleanupExpired, if_true]
  by_cases h : (st.filter (fun p => isExpiredAt now p.2)).isEmpty
  · rw [if_pos h]
    have hnil : st.filter (fun p => isExpiredAt now p.2) = [] :=
      List.isEmpty_iff.mp h
    have hall : ∀ p ∈ st, (!isExpiredAt now p.2) = true := by
      intro p hp
      by_contra hc
      have hexp : isExpiredAt now p.2 = true := by
        revert hc
        cases isExpiredAt now p.2 <;> simp
      have : p ∈ st.filter (fun p => isExpiredAt now p.2) :=
        List.mem_filter.mpr ⟨hp, hexp⟩
      rw [hnil] at this
      simp at this
    exact (List.filter_eq_self.mpr hall).symm
  · rw [if_neg h]

/-! ### Supporting lemmas about the escalation policy -/

lemma handleGpuError_heavy (st : Store) (now : Int) (saveOk : Bool)
    (s : String) (count : Int) (node iid : String)
    (hs : s ≠ "HEALTHY") (hx : strContains s "XID" = true) (hc : count > 5) :
    handleGpuError st now saveOk ⟨s, count⟩ node iid =
      ((addExclusion st now saveOk iid node s (some 900)).2,
       [Action.emitMetric s count node iid,
        Action.addExcl iid node s 900,
        Action.replaceRequest node iid 900]) := by
  simp [handleGpuError, hs, hx, hc]

lemma handleGpuError_light (st : Store) (now : Int) (saveOk : Bool)
    (s : String) (count : Int) (node iid : String)
    (hs : s ≠ "HEALTHY") (hx : strContains s "XID" = true) (hc : count ≤ 5) :
    handleGpuError st now saveOk ⟨s, count⟩ node iid =
      ((addExclusion st now saveOk iid node s (some 200)).2,
       [Action.emitMetric s count node iid,
        Action.addExcl iid node s 200,
        Action.rebootRequest node iid 30 true]) := by
  have hc' : ¬ count > 5 := not_lt.mpr hc
  simp [handleGpuError, hs, hx, hc, hc']

lemma handleGpuError_metric_only (st : Store) (now : Int) (saveOk : Bool)
    (s : String) (count : Int) (node iid : String)
    (hs : s ≠ "HEALTHY") (hx : strContains s "XID" = false) :
    handleGpuError st now saveOk ⟨s, count⟩ node iid =
      (st, [Action.emitMetric s count node iid]) := by
  simp [handleGpuError, hs, hx]

lemma metricCount_handleGpuError (st : Store) (now : Int) (saveOk : Bool)
    (s : String) (count : Int) (node iid : String) (hs : s ≠ "HEALTHY") :
    metricCount (handleGpuError st now saveOk ⟨s, count⟩ node iid).2 = 1 := by
  by_cases hx : strContains s "XID" = true
  · rcases lt_or_le 5 count with hgt | hle
    · rw [handleGpuError_heavy st now saveOk s count node iid hs hx hgt]
      rfl
    · rw [handleGpuError_light st now saveOk s count node iid hs hx hle]
      rfl
  · rw [handleGpuError_metric_only st now saveOk s count node iid hs
        (by revert hx; cases strContains s "XID" <;> simp)]
    rfl

lemma shouldMonitor_snd (st : Store) (now : Int) (saveOk : Bool) (iid : String) :
    (shouldMonitor st now saveOk iid).2 = (cleanupExpired st now saveOk).2 := by
  simp only [shouldMonitor]
  split
  · split <;> rfl
  · rfl

/-! ### Claim theorems: the suppression store -/

/-- C3 (counterexample): the contract "add fails iff the resource already has
a non-expired record" is refuted by a store holding an expired record:
`add_exclusion` tests bare membership without sweeping first, so it still
returns `False` even though the record is expired. -/
theorem add_active_iff_counterexample :
    (addExclusion [("i-1", ⟨"n1", "XID_ERROR", 0, 10⟩)] 1000 true
      "i-1" "n1" "XID_ERROR" (some 200)).1 = false ∧
    (addExclusion [("i-1", ⟨"n1", "XID_ERROR", 0, 10⟩)] 1000 true
      "i-1" "n1" "XID_ERROR" (some 200)).2 = [("i-1", ⟨"n1", "XID_ERROR", 0, 10⟩)] ∧
    hasActiveRecord [("i-1", ⟨"n1", "XID_ERROR", 0, 10⟩)] 1000 "i-1" = false := by
  decide

/-- C3 (amended): with a successful persistence write, `add_exclusion` returns
`False` and leaves the persisted store unchanged if and only if the
`resource_id` already has a record in the store, expired records included;
otherwise it appends a record whose `created_at` equals the current time and
persists the updated map. -/
theorem add_rejects_iff_present (st : Store) (now : Int)
    (iid node etype : String) (t : Option Int) :
    (addExclusion st now true iid node etype t = (false, st) ↔
      (lookupEx st iid).isSome = true) ∧
    ((lookupEx st iid).isSome = false →
      addExclusion st now true iid node etype t =
        (true, st ++ [(iid, ⟨node, etype, now, effectiveTimeout t⟩)])) := by
  constructor
  · constructor
    · intro h
      by_contra hn
      have hn' : (lookupEx st iid).isSome = false := by
        revert hn
        cases (lookupEx st iid).isSome <;> simp
      simp [addExclusion, hn'] at h
    · intro h
      simp [addExclusion, h]
  · intro h
    simp [addExclusion, h]

theorem add_rejects_iff_present_witness :
    addExclusion [] 5 true "i-4" "n4" "ECC_ERROR" (some 300) =
      (true, [("i-4", ⟨"n4", "ECC_ERROR", 5, 300⟩)]) := by
  have h := (add_rejects_iff_present [] 5 "i-4" "n4" "ECC_ERROR" (some 300)).2 rfl
  simpa [effectiveTimeout] using h

/-- C4: `add_exclusion` on an already-suppressed resource returns `False`
before any mutation, so the existing record (its `start_time` and `timeout`
in particular) is left exactly as it was. -/
theorem add_on_suppressed_preserves (st : Store) (now : Int) (saveOk : Bool)
    (iid node etype : String) (t : Option Int) (r : ExclusionRecord)
    (h : lookupEx st iid = some r) :
    addExclusion st now saveOk iid node etype t = (false, st) ∧
    lookupEx (addExclusion st now saveOk iid node etype t).2 iid = some r := by
  have hs : (lookupEx st iid).isSome = true := by rw [h]; rfl
  exact ⟨by simp [addExclusion, hs], by simp [addExclusion, hs, h]⟩

theorem add_on_suppressed_preserves_witness :
    addExclusion [("i-5", ⟨"n5", "XID_ERROR", 7, 100⟩)] 42 true
      "i-5" "n5b" "ECC_ERROR" (some 999) =
      (false, [("i-5", ⟨"n5", "XID_ERROR", 7, 100⟩)]) ∧
    lookupEx (addExclusion [("i-5", ⟨"n5", "XID_ERROR", 7, 100⟩)] 42 true
      "i-5" "n5b" "ECC_ERROR" (some 999)).2 "i-5" = some ⟨"n5", "XID_ERROR", 7, 100⟩ :=
  add_on_suppressed_preserves _ 42 true "i-5" "n5b" "ECC_ERROR" (some 999) _ rfl

/-- C5 (counterexample): at `now = created_at + duration` exactly, the record
is not yet removed (the code's expiry test `now - start_time > timeout` is
strict), so `should_monitor` still reports suppression instead of the claimed
`(true, none)`. -/
theorem should_monitor_boundary_counterexample :
    (100 : Int) ≥ 0 + 100 ∧
    (shouldMonitor [("i-1", ⟨"n1", "XID_ERROR", 0, 100⟩)] 100 true "i-1").1 =
      (false, some (reasonString ⟨"n1", "XID_ERROR", 0, 100⟩)) := by
  decide

/-- C5 (amended): once `now` is strictly greater than `created_at + duration`
(the expiry sweep removes a record only when `now - start_time > timeout`),
`should_monitor` returns `(true, none)` and the record is gone from the
post-sweep store; and whenever `should_monitor` answers `false`, the reason it
reports is built from a record still present in the post-sweep store. -/
theorem monotonic_expiry (st : Store) (now : Int) (saveOk : Bool)
    (iid : String) (r : ExclusionRecord) :
    (StoreWF st → lookupEx st iid = some r → now - r.start_time > r.timeout →
      (shouldMonitor st now true iid).1 = (true, none) ∧
      lookupEx (shouldMonitor st now true iid).2 iid = none) ∧
    ((shouldMonitor st now saveOk iid).1.1 = false →
      ∃ rec, lookupEx (shouldMonitor st now saveOk iid).2 iid = some rec ∧
        (shouldMonitor st now saveOk iid).1.2 = some (reasonString rec)) := by
  constructor
  · intro hwf hl hexp
    have hkey : ∀ r', (iid, r') ∈ st →
        (fun p : String × ExclusionRecord => !isExpiredAt now p.2) (iid, r') = false := by
      intro r' hr'
      have hrr : r' = r := mem_unique_of_wf hwf hr' (lookupEx_eq_some_mem hl)
      subst hrr
      simp [isExpiredAt, hexp]
    have hnone : lookupEx (cleanupExpired st now true).2 iid = none := by
      rw [cleanupExpired_snd]
      exact lookupEx_filter_none hkey
    refine ⟨?_, by rw [shouldMonitor_snd]; exact hnone⟩
    simp [shouldMonitor, isExcluded, hnone]
  · intro hfalse
    cases hl2 : lookupEx (cleanupExpired st now saveOk).2 iid with
    | none =>
      exfalso
      simp [shouldMonitor, isExcluded, hl2] at hfalse
    | some info =>
      have hex : isExcluded (cleanupExpired st now saveOk).2 iid = true := by
        simp [isExcluded, hl2]
      refine ⟨info, by rw [shouldMonitor_snd]; exact hl2, ?_⟩
      simp [shouldMonitor, hex, hl2]

theorem monotonic_expiry_witness :
    ((shouldMonitor [("i-6", ⟨"n6", "XID_ERROR", 0, 50⟩)] 100 true "i-6").1 =
        (true, none) ∧
      lookupEx (shouldMonitor [("i-6", ⟨"n6", "XID_ERROR", 0, 50⟩)] 100 true "i-6").2
        "i-6" = none) ∧
    (∃ rec, lookupEx
        (shouldMonitor [("i-7", ⟨"n7", "ECC_ERROR", 0, 500⟩)] 100 true "i-7").2
        "i-7" = some rec ∧
      (shouldMonitor [("i-7", ⟨"n7", "ECC_ERROR", 0, 500⟩)] 100 true "i-7").1.2 =
        some (reasonString rec)) :=
  ⟨(monotonic_expiry [("i-6", ⟨"n6", "XID_ERROR", 0, 50⟩)] 100 true "i-6"
      ⟨"n6", "XID_ERROR", 0, 50⟩).1 (by simp [StoreWF]) rfl (by decide),
   (monotonic_expiry [("i-7", ⟨"n7", "ECC_ERROR", 0, 500⟩)] 100 true "i-7"
      ⟨"n7", "ECC_ERROR", 0, 500⟩).2 (by decide)⟩

/-- C6: the expiry sweep is idempotent at a fixed time: after one sweep (with
its persist succeeding), an immediate second sweep removes zero records,
returns 0, and leaves the store exactly as the first sweep left it. -/
theorem sweep_idempotent (st : Store) (now : Int) :
    cleanupExpired (cleanupExpired st now true).2 now true =
      (0, (cleanupExpired st now true).2) := by
  have h1 := cleanupExpired_snd st now
  set st1 := (cleanupExpired st now true).2 with hst1
  have hnil : st1.filter (fun p => isExpiredAt now p.2) = [] := by
    rw [h1]
    apply List.filter_eq_nil_iff.mpr
    intro p hp
    have hq := (List.mem_filter.mp hp).2
    simp only [Bool.not_eq_true'] at hq
    simp [hq]
  have hempty : (st1.filter (fun p => isExpiredAt now p.2)).isEmpty = true := by
    rw [hnil]
    rfl
  simp [cleanupExpired, hempty]

/-- C9: a failed persistence read (missing file, I/O error, malformed JSON)
loads as the empty map instead of raising, and a failed persistence write
makes `add_exclusion` / `remove_exclusion` return `False` with the persisted
store unchanged. -/
theorem persistence_failure_handling :
    (loadExclusions LoadResult.missing = [] ∧
     loadExclusions LoadResult.ioError = [] ∧
     loadExclusions LoadResult.malformed = []) ∧
    (∀ (st : Store) (now : Int) (iid node etype : String) (t : Option Int),
      addExclusion st now false iid node etype t = (false, st)) ∧
    (∀ (st : Store) (iid : String), removeExclusion st false iid = (false, st)) := by
  refine ⟨⟨rfl, rfl, rfl⟩, ?_, ?_⟩
  · intro st now iid node etype t
    simp only [addExclusion]
    split <;> simp
  · intro st iid
    simp only [removeExclusion]
    split <;> simp

/-- C10: a `None` or `0` duration passed to `add_exclusion` or
`pause_instance` falls back to the manager's `default_timeout` of 1800
seconds (`timeout or self.default_timeout` treats both as falsy), and the
resulting record is not immediately expired. -/
theorem falsy_duration_uses_default (st : Store) (now : Int)
    (iid node etype : String) (h : (lookupEx st iid).isSome = false) :
    defaultTimeout = 1800 ∧
    addExclusion st now true iid node etype none =
      (true, st ++ [(iid, ⟨node, etype, now, 1800⟩)]) ∧
    addExclusion st now true iid node etype (some 0) =
      (true, st ++ [(iid, ⟨node, etype, now, 1800⟩)]) ∧
    pauseInstance st now true iid node etype none =
      (true, st ++ [(iid, ⟨node, etype, now, 1800⟩)]) ∧
    pauseInstance st now true iid node etype (some 0) =
      (true, st ++ [(iid, ⟨node, etype, now, 1800⟩)]) ∧
    isExpiredAt now ⟨node, etype, now, 1800⟩ = false := by
  refine ⟨rfl, ?_, ?_, ?_, ?_, ?_⟩
  · simp [addExclusion, h, effectiveTimeout, defaultTimeout]
  · simp [addExclusion, h, effectiveTimeout, defaultTimeout]
  · simp [pauseInstance, addExclusion, h, effectiveTimeout, defaultTimeout]
  · simp [pauseInstance, addExclusion, h, effectiveTimeout, defaultTimeout]
  · simp only [isExpiredAt, decide_eq_false_iff_not]
    omega

theorem falsy_duration_uses_default_witness :
    addExclusion [] 9 true "i-9" "n9" "MANUAL_PAUSE" none =
      (true, [("i-9", ⟨"n9", "MANUAL_PAUSE", 9, 1800⟩)]) ∧
    pauseInstance [] 9 true "i-9" "n9" "MANUAL_PAUSE" (some 0) =
      (true, [("i-9", ⟨"n9", "MANUAL_PAUSE", 9, 1800⟩)]) := by
  have h := falsy_duration_uses_default [] 9 "i-9" "n9" "MANUAL_PAUSE" rfl
  exact ⟨h.2.1, h.2.2.2.2.1⟩

/-! ### Claim theorems: the escalation policy and the polling cycle -/

lemma addExclusion_success_lookup (st : Store) (now : Int)
    (iid node etype : String) (tv : Int) (htv : ¬ tv = 0)
    (hlook : lookupEx st iid = none) :
    lookupEx (addExclusion st now true iid node etype (some tv)).2 iid =
      some ⟨node, etype, now, tv⟩ := by
  have hs : (lookupEx st iid).isSome = false := by rw [hlook]; rfl
  have ht : effectiveTimeout (some tv) = tv := by simp [effectiveTimeout, htv]
  simp only [addExclusion, hs, Bool.false_eq_true, if_false, if_true, ht]
  exact lookupEx_append_self _ hlook

/-- C1 (counterexample): `GPU_HEALTH_WARNING` is a WARNING-tier class, yet the
policy only emits the metric for it — its tag does not contain `"XID"`, so no
soft reboot is dispatched and no suppression record is added. -/
theorem warning_light_remediation_counterexample :
    isWarningTier SeverityClass.gpuHealthWarning = true ∧
    handleGpuError [] 0 true ⟨className SeverityClass.gpuHealthWarning, 1⟩
        "node-1" "i-1" =
      ([], [Action.emitMetric "GPU_HEALTH_WARNING" 1 "node-1" "i-1"]) ∧
    Action.rebootRequest "node-1" "i-1" 30 true ∉
      (handleGpuError [] 0 true ⟨className SeverityClass.gpuHealthWarning, 1⟩
        "node-1" "i-1").2 := by
  decide

/-- C1 (amended): every WARNING-tier fault descriptor emits exactly one
notification metric; the light remediation (soft reboot request) with the
short 200-second suppression fires only when the class tag contains `"XID"`
and the occurrence count is at most 5; a WARNING-tier tag without `"XID"`
(`GPU_HEALTH_WARNING`) receives only the metric, with no remediation and no
suppression; and an XID warning tag with count above 5 takes the heavy path
(replacement request, 900-second suppression). -/
theorem warning_tier_policy (c : SeverityClass) (hc : isWarningTier c = true)
    (st : Store) (now : Int) (saveOk : Bool) (count : Int) (node iid : String) :
    metricCount (handleGpuError st now saveOk ⟨className c, count⟩ node iid).2 = 1 ∧
    (strContains (className c) "XID" = true → count ≤ 5 →
      (handleGpuError st now saveOk ⟨className c, count⟩ node iid).2 =
        [Action.emitMetric (className c) count node iid,
         Action.addExcl iid node (className c) 200,
         Action.rebootRequest node iid 30 true]) ∧
    (strContains (className c) "XID" = false →
      handleGpuError st now saveOk ⟨className c, count⟩ node iid =
        (st, [Action.emitMetric (className c) count node iid])) ∧
    (strContains (className c) "XID" = true → count > 5 →
      (handleGpuError st now saveOk ⟨className c, count⟩ node iid).2 =
        [Action.emitMetric (className c) count node iid,
         Action.addExcl iid node (className c) 900,
         Action.replaceRequest node iid 900]) := by
  have hs : className c ≠ "HEALTHY" := by
    cases c <;> first
      | exact absurd hc (by decide)
      | decide
  refine ⟨metricCount_handleGpuError st now saveOk _ count node iid hs, ?_, ?_, ?_⟩
  · intro hx hcount
    rw [handleGpuError_light st now saveOk _ count node iid hs hx hcount]
  · intro hx
    exact handleGpuError_metric_only st now saveOk _ count node iid hs hx
  · intro hx hcount
    rw [handleGpuError_heavy st now saveOk _ count node iid hs hx hcount]

theorem warning_tier_policy_witness :
    metricCount (handleGpuError [] 0 true
        ⟨className SeverityClass.xidWarning43, 2⟩ "node-2" "i-2").2 = 1 ∧
    (handleGpuError [] 0 true ⟨className SeverityClass.xidWarning43, 2⟩
        "node-2" "i-2").2 =
      [Action.emitMetric (className SeverityClass.xidWarning43) 2 "node-2" "i-2",
       Action.addExcl "i-2" "node-2" (className SeverityClass.xidWarning43) 200,
       Action.rebootRequest "node-2" "i-2" 30 true] :=
  ⟨(warning_tier_policy SeverityClass.xidWarning43 (by decide)
      [] 0 true 2 "node-2" "i-2").1,
   (warning_tier_policy SeverityClass.xidWarning43 (by decide)
      [] 0 true 2 "node-2" "i-2").2.1 (by decide) (by decide)⟩

/-- C2: for every CRITICAL-tier severity class, a count strictly above the
threshold 5 dispatches the replacement request and applies the long (900 s)
suppression, a count at most 5 dispatches the reboot request and applies the
short (200 s) suppression, and in both cases exactly one metric data point is
emitted. -/
theorem critical_tier_policy (c : SeverityClass) (hcrit : isCriticalTier c = true)
    (st : Store) (now : Int) (saveOk : Bool) (count : Int) (node iid : String) :
    metricCount (handleGpuError st now saveOk ⟨className c, count⟩ node iid).2 = 1 ∧
    (count > 5 →
      (handleGpuError st now saveOk ⟨className c, count⟩ node iid).2 =
        [Action.emitMetric (className c) count node iid,
         Action.addExcl iid node (className c) 900,
         Action.replaceRequest node iid 900] ∧
      (lookupEx st iid = none → saveOk = true →
        lookupEx (handleGpuError st now saveOk ⟨className c, count⟩ node iid).1 iid =
          some ⟨node, className c, now, 900⟩)) ∧
    (count ≤ 5 →
      (handleGpuError st now saveOk ⟨className c, count⟩ node iid).2 =
        [Action.emitMetric (className c) count node iid,
         Action.addExcl iid node (className c) 200,
         Action.rebootRequest node iid 30 true] ∧
      (lookupEx st iid = none → saveOk = true →
        lookupEx (handleGpuError st now saveOk ⟨className c, count⟩ node iid).1 iid =
          some ⟨node, className c, now, 200⟩)) := by
  have hs : className c ≠ "HEALTHY" := by
    cases c <;> first
      | exact absurd hcrit (by decide)
      | decide
  have hx : strContains (className c) "XID" = true := by
    cases c <;> first
      | exact absurd hcrit (by decide)
      | decide
  refine ⟨metricCount_handleGpuError st now saveOk _ count node iid hs, ?_, ?_⟩
  · intro hcount
    rw [handleGpuError_heavy st now saveOk _ count node iid hs hx hcount]
    refine ⟨rfl, ?_⟩
    intro hlook hsave
    subst hsave
    exact addExclusion_success_lookup st now iid node _ 900 (by decide) hlook
  · intro hcount
    rw [handleGpuError_light st now saveOk _ count node iid hs hx hcount]
    refine ⟨rfl, ?_⟩
    intro hlook hsave
    subst hsave
    exact addExclusion_success_lookup st now iid node _ 200 (by decide) hlook

theorem critical_tier_policy_witness :
    (handleGpuError [] 0 true ⟨className SeverityClass.xidCritical999, 7⟩
        "node-3" "i-3").2 =
      [Action.emitMetric (className SeverityClass.xidCritical999) 7 "node-3" "i-3",
       Action.addExcl "i-3" "node-3" (className SeverityClass.xidCritical999) 900,
       Action.replaceRequest "node-3" "i-3" 900] ∧
    (handleGpuError [] 0 true ⟨className SeverityClass.xidCritical999, 2⟩
        "node-3" "i-3").2 =
      [Action.emitMetric (className SeverityClass.xidCritical999) 2 "node-3" "i-3",
       Action.addExcl "i-3" "node-3" (className SeverityClass.xidCritical999) 200,
       Action.rebootRequest "node-3" "i-3" 30 true] :=
  ⟨((critical_tier_policy SeverityClass.xidCritical999 (by decide)
      [] 0 true 7 "node-3" "i-3").2.1 (by decide)).1,
   ((critical_tier_policy SeverityClass.xidCritical999 (by decide)
      [] 0 true 2 "node-3" "i-3").2.2 (by decide)).1⟩

/-- C7: a HEALTHY classification causes no action: `handle_gpu_error` on the
HEALTHY class leaves the store untouched and dispatches nothing (no metric,
no remediation), and a cycle whose classifier answers HEALTHY ends with no
actions and a store touched only by the eligibility sweep. -/
theorem healthy_no_action :
    (∀ (st : Store) (now : Int) (saveOk : Bool) (count : Int) (node iid : String),
      handleGpuError st now saveOk ⟨"HEALTHY", count⟩ node iid = (st, [])) ∧
    (∀ (env : ResourceEnv) (st : Store) (now : Int) (saveOk : Bool)
      (pe : ParsedError), env.classified = Except.ok pe →
      pe.error_class = "HEALTHY" →
      ∃ b, monitorSingleNode env st now saveOk =
        ((shouldMonitor st now saveOk env.instance_id).2, Except.ok (b, []))) := by
  have hxf : strContains "HEALTHY" "XID" = false := by decide
  constructor
  · intro st now saveOk count node iid
    simp [handleGpuError, hxf]
  · intro env st now saveOk pe hcl hH
    by_cases hm : ((shouldMonitor st now saveOk env.instance_id).1).1 = false
    · exact ⟨true, by simp [monitorSingleNode, hm]⟩
    · cases hf : env.fetched with
      | none => exact ⟨false, by simp [monitorSingleNode, hm, hf]⟩
      | some raw => exact ⟨true, by simp [monitorSingleNode, hm, hf, hcl, hH]⟩

theorem healthy_no_action_witness :
    handleGpuError [] 0 true ⟨"HEALTHY", 4⟩ "node-h" "i-h" = ([], []) ∧
    ∃ b, monitorSingleNode ⟨"node-h", "i-h", some "report", Except.ok ⟨"HEALTHY", 0⟩⟩
        [] 0 true =
      ((shouldMonitor [] 0 true "i-h").2, Except.ok (b, [])) :=
  ⟨healthy_no_action.1 [] 0 true 4 "node-h" "i-h",
   healthy_no_action.2 ⟨"node-h", "i-h", some "report", Except.ok ⟨"HEALTHY", 0⟩⟩
     [] 0 true ⟨"HEALTHY", 0⟩ rfl rfl⟩

/-- C8: every resource in a cycle yields exactly one recorded outcome, and a
per-resource exception is caught by the loop: it contributes only its logged
outcome while the remaining resources are still evaluated, the cycle itself
never raising (its result type carries no exception). -/
theorem cycle_exception_containment (envs : List ResourceEnv) (st : Store)
    (now : Int) (saveOk : Bool) :
    (monitorAllNodes envs st now saveOk).2.length = envs.length ∧
    (∀ (env : ResourceEnv) (e : String) (rest : List ResourceEnv),
      (monitorSingleNode env st now saveOk).2 = Except.error e →
      (monitorAllNodes (env :: rest) st now saveOk).2 =
        NodeOutcome.exceptionLogged e ::
          (monitorAllNodes rest (monitorSingleNode env st now saveOk).1 now saveOk).2) := by
  constructor
  · induction envs generalizing st with
    | nil => rfl
    | cons env rest ih =>
      simp only [monitorAllNodes]
      cases h : (monitorSingleNode env st now saveOk).2 <;> simp [h, ih]
  · intro env e rest h
    simp [monitorAllNodes, h]

theorem cycle_exception_containment_witness :
    (monitorAllNodes [⟨"node-8", "i-8", some "m", Except.error "boom"⟩]
      [] 0 true).2 = [NodeOutcome.exceptionLogged "boom"] := by
  have h := (cycle_exception_containment
      [⟨"node-8", "i-8", some "m", Except.error "boom"⟩] [] 0 true).2
      ⟨"node-8", "i-8", some "m", Except.error "boom"⟩ "boom" [] (by rfl)
  simpa [monitorAllNodes] using h

end GpuMonitor
